import Mathlib

/-!
Verification of the metrics synchronization layer of the
Network-Performance-Monitor frontend (`frontend/app1`).

The embedded code:
* the `MetricsProvider` store (`contexts/MetricsContext`, shown alongside
  `app/page.tsx`): its state, the WebSocket update handler
  `handleWebSocketUpdate`, the fetch-failure path of `fetchData`, the
  selection-reconciliation `useEffect`, and the `useMetrics` hook;
* the table transformation and filter of `components/table-mode`
  (`transformedData` / `filteredData`);
* the `MultiSelect` explicit-selection callbacks.

Modelling conventions: JavaScript numbers are rationals (`ℚ`), instants
are naturals (`ℕ`), JS arrays are lists, and a React state update
`setX(v)` is a functional update of a `ProviderState` record.  The
handler created inside the mount-time `useEffect` (empty dependency
array) closes over the `selectedInterfaces` value of the first render;
that captured value is an explicit parameter `capturedSelected` of the
embedded handler, distinct from the live `selectedInterfaces` field of
the state it updates.

The helper library `lib/api` (`getLatestMetrics`,
`convertHistoricalToChartData`) is not part of the provided sources;
those two functions are modelled from the spec (see their doc comments).
Everything else is translated directly from the source files.
-/

namespace NetworkMonitor

/-- A performance sample as carried in `performance_metrics` arrays
(`PerformanceMetric` in `lib/api`): per-interface measurements.
Counters are naturals, measured floats are rationals, the timestamp an
instant (natural). -/
structure PerformanceMetric where
  interface : String
  timestamp : ℕ
  latency : ℚ
  throughput : ℚ
  packets_sent : ℕ
  packets_recv : ℕ
  bytes_sent : ℕ
  bytes_recv : ℕ
deriving Repr, DecidableEq

/-- A known network interface (`NetworkInterface` in `lib/api`):
a name plus optional addresses. -/
structure NetworkInterface where
  name : String
  ipv4 : Option String
  ipv6 : Option String
deriving Repr, DecidableEq

/-- One full metrics snapshot (`AllMetrics` in `lib/api`): samples,
interfaces and the snapshot's timestamp. -/
structure AllMetrics where
  performance_metrics : List PerformanceMetric
  interfaces : List NetworkInterface
  timestamp : ℕ
deriving Repr, DecidableEq

/-- One chart point (`ChartDataPoint` in `lib/api`): a time label and a
finite mapping from `"<metric>_<interface>"` field names to values. -/
structure ChartDataPoint where
  time : ℕ
  fields : List (String × ℚ)
deriving Repr, DecidableEq

/-- The latest-value KPI group held in the provider's `latestMetrics`
state. -/
structure LatestMetrics where
  latency : ℚ
  throughput : ℚ
  packetLoss : ℚ
  bandwidth : ℚ
deriving Repr, DecidableEq

/-- Result shape of `getLatestMetrics`: the latest-value KPIs plus the
two rolling averages, exactly the triple destructured at its call
sites. -/
structure KPIResult where
  latestMetric : LatestMetrics
  avgLatency : ℚ
  avgThroughput : ℚ
deriving Repr, DecidableEq

/-- Arithmetic mean of a list of rationals (0 for the empty list, since
`x / 0 = 0` in `ℚ`). -/
def avgQ (l : List ℚ) : ℚ := l.sum / (l.length : ℚ)

/-- Modelled from the spec: the per-sample derived packet-loss field of
§4.1, `packet_loss_pct = max(0, (packets_sent − packets_recv) /
packets_sent × 100)` when `packets_sent > 0`, else 0.  (`lib/api` is
missing from the sources; `components/table-mode` states it reimplements
the "same logic as in lib/api.ts".) -/
def packetLossOf (sent recv : ℕ) : ℚ :=
  if 0 < sent then max 0 ((((sent : ℚ) - (recv : ℚ)) / (sent : ℚ)) * 100) else 0

/-- Modelled from the spec: the per-sample derived bandwidth field of
§4.1, `bandwidth_mb = bytes_recv / (1024×1024)`. -/
def bandwidthOf (bytes_recv : ℕ) : ℚ := (bytes_recv : ℚ) / (1024 * 1024)

/-- Modelled from the spec: `lib/api`'s `getLatestMetrics(samples,
selectedInterfaces)` is the Aggregate Calculator of §4.4.  It filters
the samples to `interface ∈ selected`; if the filtered set is empty all
KPIs are 0; otherwise `avgLatency`/`avgThroughput` are arithmetic means
over the filtered set, and the latest-value KPIs are taken from the most
recent (last-arrived) sample per selected interface, then averaged
across the selected interfaces. -/
def getLatestMetrics (samples : List PerformanceMetric)
    (selected : List String) : KPIResult :=
  let filtered := samples.filter (fun m => selected.contains m.interface)
  if filtered.isEmpty then ⟨⟨0, 0, 0, 0⟩, 0, 0⟩
  else
    let latestPer := selected.filterMap
      (fun i => filtered.reverse.find? (fun m => m.interface == i))
    ⟨⟨avgQ (latestPer.map (·.latency)),
      avgQ (latestPer.map (·.throughput)),
      avgQ (latestPer.map (fun m => packetLossOf m.packets_sent m.packets_recv)),
      avgQ (latestPer.map (fun m => bandwidthOf m.bytes_recv))⟩,
     avgQ (filtered.map (·.latency)),
     avgQ (filtered.map (·.throughput))⟩

/-- Modelled from the spec: `lib/api`'s `convertHistoricalToChartData`
is the Series Builder of §4.3 — for each snapshot of the given history,
one `ChartPoint` labelled with the snapshot's timestamp, whose fields
are `latency_<iface>` and `throughput_<iface>` for every sample of that
snapshot. -/
def convertHistoricalToChartData (hist : List AllMetrics) : List ChartDataPoint :=
  hist.map (fun snap =>
    ⟨snap.timestamp,
     snap.performance_metrics.flatMap (fun m =>
       [("latency_" ++ m.interface, m.latency),
        ("throughput_" ++ m.interface, m.throughput)])⟩)

/-- The `MetricsProvider` state: one field per `useState` hook of
`MetricsContext` (loading and error included). -/
structure ProviderState where
  metrics : List PerformanceMetric
  interfaces : List NetworkInterface
  chartData : List ChartDataPoint
  latestMetrics : LatestMetrics
  avgLatency : ℚ
  avgThroughput : ℚ
  availableInterfaces : List String
  selectedInterfaces : List String
  loading : Bool
  error : Option String
deriving Repr, DecidableEq

/-- The initial provider state: the `useState` initial values of
`MetricsContext`. -/
def initialState : ProviderState :=
  { metrics := []
    interfaces := []
    chartData := []
    latestMetrics := ⟨0, 0, 0, 0⟩
    avgLatency := 0
    avgThroughput := 0
    availableInterfaces := []
    selectedInterfaces := []
    loading := true
    error := none }

/-- The pushed payload, classified by the dispatch chain of
`handleWebSocketUpdate`: the current shape (`current_data` and
`historical_data` both present), the legacy shape (`performance_metrics`
an array, `interfaces` possibly absent; the handler stamps it with the
receipt instant `new Date()`, the explicit clock argument here), or
anything matching neither shape. -/
inductive WsData where
  | current (current_data : AllMetrics) (historical_data : List AllMetrics)
  | legacy (performance_metrics : List PerformanceMetric)
      (interfaces : Option (List NetworkInterface)) (receipt : ℕ)
  | invalid
deriving Repr, DecidableEq

/-- The WebSocket update handler `handleWebSocketUpdate` of
`MetricsContext`.  `capturedSelected` is the `selectedInterfaces` value
the handler closed over when the mount-time `useEffect` (empty
dependency array) created it; in the running system it is always the
initial `[]`.  The handler replaces metrics, interfaces and chart data,
recomputes the KPIs via `getLatestMetrics` with the captured selection,
replaces the available-interface names, and — if the captured selection
is empty and interfaces arrived — resets the selection to all interface
names.  An unrecognized payload only logs a warning. -/
def handleWebSocketUpdate (capturedSelected : List String)
    (s : ProviderState) (data : WsData) : ProviderState :=
  match data with
  | .current cd hist =>
      let interfaceNames := cd.interfaces.map (·.name)
      let r := getLatestMetrics cd.performance_metrics capturedSelected
      { s with
        metrics := cd.performance_metrics
        interfaces := cd.interfaces
        chartData := convertHistoricalToChartData hist
        latestMetrics := r.latestMetric
        avgLatency := r.avgLatency
        avgThroughput := r.avgThroughput
        availableInterfaces := interfaceNames
        selectedInterfaces :=
          if capturedSelected.length = 0 ∧ 0 < interfaceNames.length
          then interfaceNames else s.selectedInterfaces }
  | .legacy pm ifacesOpt receipt =>
      let ifaces := ifacesOpt.getD []
      let interfaceNames := ifaces.map (·.name)
      let r := getLatestMetrics pm capturedSelected
      { s with
        metrics := pm
        interfaces := ifaces
        chartData := convertHistoricalToChartData [⟨pm, ifaces, receipt⟩]
        latestMetrics := r.latestMetric
        avgLatency := r.avgLatency
        avgThroughput := r.avgThroughput
        availableInterfaces := interfaceNames
        selectedInterfaces :=
          if capturedSelected.length = 0 ∧ 0 < interfaceNames.length
          then interfaceNames else s.selectedInterfaces }
  | .invalid => s

/-- The catch branch of `fetchData` (initial pull failed): sets the
error message and resets metrics, interfaces, chart data, KPIs and
available interfaces to their zeroed defaults; the `finally` clears
`loading`.  `selectedInterfaces` is not touched by this path. -/
def fetchDataFailure (s : ProviderState) : ProviderState :=
  { s with
    error := some "Failed to fetch network metrics"
    metrics := []
    interfaces := []
    chartData := []
    latestMetrics := ⟨0, 0, 0, 0⟩
    avgLatency := 0
    avgThroughput := 0
    availableInterfaces := []
    loading := false }

/-- The selection-reconciliation rule of the provider's second
`useEffect` (and of the identical effects in `Dashboard` and
`TableMode`): if interfaces are available and the selection is empty,
select all available interfaces, otherwise leave the selection alone. -/
def reconcile (available selected : List String) : List String :=
  if 0 < available.length ∧ selected.length = 0 then available else selected

/-- An explicit `setSelectedInterfaces` call from the UI (for example
`MultiSelect`'s `handleClear`, which passes `[]`). -/
def setSelected (s : ProviderState) (sel : List String) : ProviderState :=
  { s with selectedInterfaces := sel }

/-- One run of the reconciliation `useEffect` against the current
state. -/
def reconcileEffect (s : ProviderState) : ProviderState :=
  { s with selectedInterfaces :=
      reconcile s.availableInterfaces s.selectedInterfaces }

/-- The `useMetrics` hook: reading the context outside a provider
(`none`) throws; inside a provider it returns the provider's composed
value, modelled by the provider state. -/
def useMetrics (context : Option ProviderState) : Except String ProviderState :=
  match context with
  | none => .error "useMetrics must be used within a MetricsProvider"
  | some c => .ok c

/-- ASCII lowering of one character, the per-character behaviour of
JavaScript's `toLowerCase` on the ASCII interface names and addresses
this code filters. -/
def charToLower (c : Char) : Char :=
  if 'A' ≤ c ∧ c ≤ 'Z' then Char.ofNat (c.toNat + 32) else c

/-- JavaScript's `String.prototype.toLowerCase`, character by
character. -/
def strToLower (s : String) : String := ⟨s.data.map charToLower⟩

/-- Does `l` occur as a contiguous sublist of the second argument?
Helper for JavaScript's `String.prototype.includes`. -/
def hasSubList (pat : List Char) : List Char → Bool
  | [] => pat.isEmpty
  | c :: cs => pat.isPrefixOf (c :: cs) || hasSubList pat cs

/-- JavaScript's `String.prototype.includes`: substring containment. -/
def strIncludes (s pat : String) : Bool := hasSubList pat.data s.data

/-- The `NetworkMetric` row shape of `components/table-mode`. -/
structure NetworkMetricRow where
  id : String
  interface : String
  status : String
  latency : ℚ
  throughput : ℚ
  packetLoss : ℚ
  bandwidth : ℚ
  timestamp : ℕ
  ipv4 : Option String
  ipv6 : Option String
deriving Repr, DecidableEq

/-- One row of `TableMode`'s `transformedData`: looks up the sample's
interface info, computes packet loss from the packet counters
(clamped below at 0) and bandwidth from `bytes_recv`, and copies the
rest.  The `|| 0` fallbacks of the source are the identity here because
the embedded sample fields are total. -/
def transformedRow (interfaces : List NetworkInterface) (index : ℕ)
    (metric : PerformanceMetric) : NetworkMetricRow :=
  let interfaceInfo := interfaces.find? (fun iface => iface.name == metric.interface)
  let sent := metric.packets_sent
  let recv := metric.packets_recv
  let packetLoss : ℚ :=
    if 0 < sent then (((sent : ℚ) - (recv : ℚ)) / (sent : ℚ)) * 100 else 0
  let bandwidth : ℚ := (metric.bytes_recv : ℚ) / (1024 * 1024)
  { id := toString index
    interface := metric.interface
    status := "active"
    latency := metric.latency
    throughput := metric.throughput
    packetLoss := max 0 packetLoss
    bandwidth := bandwidth
    timestamp := metric.timestamp
    ipv4 := interfaceInfo.bind (·.ipv4)
    ipv6 := interfaceInfo.bind (·.ipv6) }

/-- `TableMode`'s `transformedData`: every sample mapped to a row, the
row id being the sample's index. -/
def transformedData (metrics : List PerformanceMetric)
    (interfaces : List NetworkInterface) : List NetworkMetricRow :=
  metrics.enum.map (fun p => transformedRow interfaces p.1 p.2)

/-- The search disjunction of `TableMode`'s `filteredData`: the search
string occurs in the lowered interface name, in the IPv4 address
(case-sensitive, as in the source), or in the lowered IPv6 address. -/
def rowMatchesSearch (row : NetworkMetricRow) (search : String) : Bool :=
  strIncludes (strToLower row.interface) (strToLower search)
  || (match row.ipv4 with
      | some s => strIncludes s search
      | none => false)
  || (match row.ipv6 with
      | some s => strIncludes (strToLower s) (strToLower search)
      | none => false)

/-- `TableMode`'s `filteredData`: keep a row when (its interface is
selected, or the selection is empty) and it matches the search. -/
def filteredData (selectedInterfaces : List String) (search : String)
    (rows : List NetworkMetricRow) : List NetworkMetricRow :=
  rows.filter (fun row =>
    (selectedInterfaces.contains row.interface || selectedInterfaces.isEmpty)
    && rowMatchesSearch row search)

/-! Concrete fixtures used by the closed-instance theorems below. -/

/-- A sample for `eth0` at instant 10 (the spec's end-to-end example
values). -/
def mEth : PerformanceMetric :=
  { interface := "eth0", timestamp := 10, latency := 12, throughput := 80
    packets_sent := 100, packets_recv := 98, bytes_sent := 0, bytes_recv := 1048576 }

/-- A sample for `wlan0` at the earlier instant 5. -/
def mWlan : PerformanceMetric :=
  { interface := "wlan0", timestamp := 5, latency := 99, throughput := 40
    packets_sent := 100, packets_recv := 90, bytes_sent := 0, bytes_recv := 2097152 }

/-- The `eth0` interface record. -/
def ifEth : NetworkInterface := { name := "eth0", ipv4 := some "10.0.0.2", ipv6 := none }

/-- The `wlan0` interface record. -/
def ifWlan : NetworkInterface := { name := "wlan0", ipv4 := none, ipv6 := none }

/-- Snapshot S1: `eth0` data at timestamp 10. -/
def snapEth : AllMetrics := { performance_metrics := [mEth], interfaces := [ifEth], timestamp := 10 }

/-- Snapshot S2: `wlan0` data at the strictly lower timestamp 5. -/
def snapWlan : AllMetrics := { performance_metrics := [mWlan], interfaces := [ifWlan], timestamp := 5 }

/-- A concrete table row for `eth0`. -/
def rowEth : NetworkMetricRow :=
  { id := "0", interface := "eth0", status := "active", latency := 12
    throughput := 80, packetLoss := 2, bandwidth := 1, timestamp := 10
    ipv4 := none, ipv6 := none }

/-! Theorems. -/

/-- C10: calling `useMetrics` without a surrounding provider (no context
value) throws the error `useMetrics must be used within a
MetricsProvider` rather than returning a default or undefined context;
with a provider it returns the provider's composed state. -/
theorem useMetrics_requires_provider :
    useMetrics none = Except.error "useMetrics must be used within a MetricsProvider"
    ∧ ∀ c : ProviderState, useMetrics (some c) = Except.ok c :=
  ⟨rfl, fun _ => rfl⟩

/-- C9: whenever the initial pull fails, the exposed error state becomes
non-null and metrics, interfaces, chart series and available interfaces
are emptied while all KPIs become 0 — from any prior state, so no stale
non-zero value survives alongside the error. -/
theorem fetch_failure_resets_state (s : ProviderState) :
    (fetchDataFailure s).error = some "Failed to fetch network metrics"
    ∧ (fetchDataFailure s).error ≠ none
    ∧ (fetchDataFailure s).metrics = []
    ∧ (fetchDataFailure s).interfaces = []
    ∧ (fetchDataFailure s).chartData = []
    ∧ (fetchDataFailure s).availableInterfaces = []
    ∧ (fetchDataFailure s).latestMetrics = ⟨0, 0, 0, 0⟩
    ∧ (fetchDataFailure s).avgLatency = 0
    ∧ (fetchDataFailure s).avgThroughput = 0 :=
  ⟨rfl, by simp [fetchDataFailure], rfl, rfl, rfl, rfl, rfl, rfl, rfl⟩

/-- C5: a pushed payload matching neither the current shape nor the
legacy shape leaves the provider state — metrics, interfaces, chart
data, KPIs, available interfaces and selection alike — exactly
unchanged; the handler is total (it cannot throw) and only warns. -/
theorem invalid_payload_leaves_state_unchanged
    (capturedSelected : List String) (s : ProviderState) :
    handleWebSocketUpdate capturedSelected s .invalid = s :=
  rfl

/-- C7: selection reconciliation returns `available` in full exactly
when `available` is non-empty and `selected` is empty, and returns
`selected` unchanged in every other case — in particular stale selected
names not in `available` are kept. -/
theorem reconcile_cases (available selected : List String) :
    (available ≠ [] ∧ selected = [] → reconcile available selected = available)
    ∧ (¬(available ≠ [] ∧ selected = []) → reconcile available selected = selected) := by
  constructor
  · rintro ⟨ha, hs⟩
    have h : 0 < available.length ∧ selected.length = 0 :=
      ⟨List.length_pos.mpr ha, by simp [hs]⟩
    simp only [reconcile, if_pos h]
  · intro h
    have h' : ¬(0 < available.length ∧ selected.length = 0) := by
      rintro ⟨h1, h2⟩
      exact h ⟨List.length_pos.mp h1, List.length_eq_zero.mp h2⟩
    simp only [reconcile, if_neg h']

/-- Witness for C7: the auto-fill case and a stale-selection case, both
concrete. -/
theorem reconcile_cases_witness :
    reconcile ["eth0", "wlan0"] [] = ["eth0", "wlan0"]
    ∧ reconcile ["eth0"] ["oldif"] = ["oldif"] :=
  ⟨(reconcile_cases ["eth0", "wlan0"] []).1 ⟨by decide, rfl⟩,
   (reconcile_cases ["eth0"] ["oldif"]).2 (by decide)⟩

/-- C6: for every sample (packet and byte counters are naturals, hence
non-negative), the table row's derived packet loss equals
`max(0, (packets_sent − packets_recv) / packets_sent × 100)` when
`packets_sent > 0` and 0 otherwise, its bandwidth equals
`bytes_recv / (1024×1024)`, and consequently the packet loss lies in
`[0, 100]` and the bandwidth is non-negative. -/
theorem transformedRow_packet_loss_bandwidth
    (interfaces : List NetworkInterface) (index : ℕ) (metric : PerformanceMetric) :
    (transformedRow interfaces index metric).packetLoss
      = (if 0 < metric.packets_sent
         then max 0 ((((metric.packets_sent : ℚ) - (metric.packets_recv : ℚ))
                        / (metric.packets_sent : ℚ)) * 100)
         else 0)
    ∧ 0 ≤ (transformedRow interfaces index metric).packetLoss
    ∧ (transformedRow interfaces index metric).packetLoss ≤ 100
    ∧ (transformedRow interfaces index metric).bandwidth
        = (metric.bytes_recv : ℚ) / (1024 * 1024)
    ∧ 0 ≤ (transformedRow interfaces index metric).bandwidth := by
  have hpl : (transformedRow interfaces index metric).packetLoss
      = max 0 (if 0 < metric.packets_sent
               then (((metric.packets_sent : ℚ) - (metric.packets_recv : ℚ))
                       / (metric.packets_sent : ℚ)) * 100
               else 0) := rfl
  have hbound : (if 0 < metric.packets_sent
      then (((metric.packets_sent : ℚ) - (metric.packets_recv : ℚ))
              / (metric.packets_sent : ℚ)) * 100
      else 0) ≤ 100 := by
    by_cases h : 0 < metric.packets_sent
    · rw [if_pos h]
      have hs : (0 : ℚ) < (metric.packets_sent : ℚ) := by exact_mod_cast h
      have hr : (0 : ℚ) ≤ (metric.packets_recv : ℚ) := by positivity
      have hdiv : ((metric.packets_sent : ℚ) - (metric.packets_recv : ℚ))
          / (metric.packets_sent : ℚ) ≤ 1 := by
        rw [div_le_one hs]; linarith
      nlinarith
    · rw [if_neg h]; norm_num
  refine ⟨?_, ?_, ?_, rfl, ?_⟩
  · rw [hpl]
    by_cases h : 0 < metric.packets_sent
    · rw [if_pos h, if_pos h]
    · rw [if_neg h, if_neg h]; simp
  · rw [hpl]; exact le_max_left _ _
  · rw [hpl]
    exact max_le (by norm_num) hbound
  · show (0 : ℚ) ≤ (metric.bytes_recv : ℚ) / (1024 * 1024)
    positivity

/-- C1 counterexample: apply S1 (`snapEth`, timestamp 10) and then the
strictly older S2 (`snapWlan`, timestamp 5) through the push handler.
The handler performs no timestamp comparison, so after both
applications the latest view (latest samples, interface set) reflects
S2, the *lower*-timestamp snapshot — it does roll back. -/
theorem latest_view_rolls_back_on_lower_timestamp :
    (handleWebSocketUpdate []
        (handleWebSocketUpdate [] initialState (.current snapEth [snapEth]))
        (.current snapWlan [snapEth, snapWlan])).metrics = [mWlan]
    ∧ (handleWebSocketUpdate []
        (handleWebSocketUpdate [] initialState (.current snapEth [snapEth]))
        (.current snapWlan [snapEth, snapWlan])).interfaces = [ifWlan]
    ∧ snapWlan.timestamp < snapEth.timestamp
    ∧ ([mWlan] : List PerformanceMetric) ≠ [mEth]
    ∧ ([ifWlan] : List NetworkInterface) ≠ [ifEth] := by
  refine ⟨rfl, rfl, by decide, ?_, by decide⟩
  simp [mWlan, mEth, PerformanceMetric.mk.injEq]

/-- C1 amended: the latest view (latest samples, interface set,
available names, latest-value KPIs) always reflects the most recently
*delivered* snapshot — the store keeps no `last_applied_timestamp` and
never compares timestamps, so delivery order alone, not timestamp
order, governs the latest view. -/
theorem latest_view_reflects_last_delivered
    (cap : List String) (s : ProviderState) (cd : AllMetrics) (hist : List AllMetrics) :
    (handleWebSocketUpdate cap s (.current cd hist)).metrics = cd.performance_metrics
    ∧ (handleWebSocketUpdate cap s (.current cd hist)).interfaces = cd.interfaces
    ∧ (handleWebSocketUpdate cap s (.current cd hist)).availableInterfaces
        = cd.interfaces.map (·.name)
    ∧ (handleWebSocketUpdate cap s (.current cd hist)).latestMetrics
        = (getLatestMetrics cd.performance_metrics cap).latestMetric :=
  ⟨rfl, rfl, rfl, rfl⟩

/-- C2 counterexample: apply S1 and then S2, where S2's payload carries
only its own snapshot in `historical_data`.  The store retains no
history of its own: the chart series after both applications is rebuilt
from S2's payload alone, contains a single point, and S1's point is
gone. -/
theorem chart_series_drops_earlier_snapshot :
    (handleWebSocketUpdate []
        (handleWebSocketUpdate [] initialState (.current snapEth [snapEth]))
        (.current snapWlan [snapWlan])).chartData
      = [⟨5, [("latency_wlan0", 99), ("throughput_wlan0", 40)]⟩]
    ∧ (handleWebSocketUpdate []
        (handleWebSocketUpdate [] initialState (.current snapEth [snapEth]))
        (.current snapWlan [snapWlan])).chartData.length = 1 :=
  ⟨rfl, rfl⟩

/-- C2 amended: each accepted current-shape push *replaces* the chart
series with one built from the `historical_data` sequence carried by
that payload (one `ChartPoint` per snapshot of the payload's history),
and each legacy-shape push replaces it with the single point of the
received metrics stamped with the receipt instant; earlier snapshots'
points persist only if the payload's history includes them. -/
theorem chart_series_rebuilt_from_payload_history
    (cap : List String) (s : ProviderState) (cd : AllMetrics) (hist : List AllMetrics)
    (pm : List PerformanceMetric) (ifs : Option (List NetworkInterface)) (receipt : ℕ) :
    (handleWebSocketUpdate cap s (.current cd hist)).chartData
        = convertHistoricalToChartData hist
    ∧ (convertHistoricalToChartData hist).length = hist.length
    ∧ (handleWebSocketUpdate cap s (.legacy pm ifs receipt)).chartData
        = convertHistoricalToChartData [⟨pm, ifs.getD [], receipt⟩] := by
  refine ⟨rfl, ?_, rfl⟩
  simp [convertHistoricalToChartData]

/-- C3 counterexample: with `eth0` available and unchanged, an explicit
`setSelectedInterfaces([])` from the UI (`MultiSelect`'s Clear) is
auto-corrected by the next reconciliation run back to `["eth0"]` —
the explicit empty selection does not survive. -/
theorem explicit_empty_selection_is_autocorrected :
    (reconcileEffect (setSelected
        { initialState with availableInterfaces := ["eth0"] } [])).selectedInterfaces
      = ["eth0"]
    ∧ (["eth0"] : List String) ≠ [] := by
  constructor
  · rfl
  · decide

/-- C3 amended: an explicit *non-empty* selection set from the UI
survives any later reconciliation run unchanged (while `available` is
unchanged); an explicit *empty* selection, however, is auto-corrected
back to the full available set whenever the available set is
non-empty. -/
theorem reconcile_respects_explicit_nonempty
    (s : ProviderState) (sel : List String) :
    (sel ≠ [] → (reconcileEffect (setSelected s sel)).selectedInterfaces = sel)
    ∧ (s.availableInterfaces ≠ [] →
        (reconcileEffect (setSelected s [])).selectedInterfaces
          = s.availableInterfaces) := by
  constructor
  · intro h
    show reconcile s.availableInterfaces sel = sel
    have h' : ¬(0 < s.availableInterfaces.length ∧ sel.length = 0) := by
      rintro ⟨_, h2⟩
      exact h (List.length_eq_zero.mp h2)
    simp only [reconcile, if_neg h']
  · intro h
    show reconcile s.availableInterfaces [] = s.availableInterfaces
    have h' : 0 < s.availableInterfaces.length ∧ ([] : List String).length = 0 :=
      ⟨List.length_pos.mpr h, rfl⟩
    simp only [reconcile, if_pos h']

/-- Witness for the amended C3: a concrete explicit `["wlan0"]`
selection survives reconciliation, a concrete explicit `[]` is reset to
the available `["eth0"]`. -/
theorem reconcile_respects_explicit_nonempty_witness :
    (reconcileEffect (setSelected
        { initialState with availableInterfaces := ["eth0"] } ["wlan0"])).selectedInterfaces
      = ["wlan0"]
    ∧ (reconcileEffect (setSelected
        { initialState with availableInterfaces := ["eth0"] } [])).selectedInterfaces
      = ["eth0"] :=
  ⟨(reconcile_respects_explicit_nonempty
      { initialState with availableInterfaces := ["eth0"] } ["wlan0"]).1 (by decide),
   (reconcile_respects_explicit_nonempty
      { initialState with availableInterfaces := ["eth0"] } []).2 (by decide)⟩

/-- C4: the push handler computes the KPIs with the selection captured
when the mount-time subscription was created (always the initial empty
list — the `useEffect` has an empty dependency array, a stale closure),
not with the selection current when the update is processed.  Failing
input: the operator has explicitly selected `["eth0"]`; a current-shape
push for `eth0` and `wlan0` arrives.  The handler leaves the latest
latency KPI at 0 where the current selection demands 12, and it also
resets the selection to all interface names. -/
theorem push_kpis_use_mount_time_selection :
    (handleWebSocketUpdate []
        (setSelected { initialState with availableInterfaces := ["eth0", "wlan0"] } ["eth0"])
        (.current ⟨[mEth, mWlan], [ifEth, ifWlan], 10⟩
          [⟨[mEth, mWlan], [ifEth, ifWlan], 10⟩])).latestMetrics.latency = 0
    ∧ (getLatestMetrics [mEth, mWlan]
        (setSelected { initialState with availableInterfaces := ["eth0", "wlan0"] }
          ["eth0"]).selectedInterfaces).latestMetric.latency = 12
    ∧ (handleWebSocketUpdate []
        (setSelected { initialState with availableInterfaces := ["eth0", "wlan0"] } ["eth0"])
        (.current ⟨[mEth, mWlan], [ifEth, ifWlan], 10⟩
          [⟨[mEth, mWlan], [ifEth, ifWlan], 10⟩])).selectedInterfaces
      = ["eth0", "wlan0"] := by
  refine ⟨rfl, ?_, rfl⟩
  show (getLatestMetrics [mEth, mWlan] ["eth0"]).latestMetric.latency = 12
  norm_num [getLatestMetrics, avgQ, mEth, mWlan, List.find?, List.filterMap]

/-- `hasSubList` with an empty pattern always succeeds (the empty string
is a substring of every string). -/
theorem hasSubList_nil (l : List Char) : hasSubList [] l = true := by
  induction l with
  | nil => rfl
  | cons c cs ih => simp [hasSubList, List.isPrefixOf, ih]

/-- An empty search string matches every row. -/
theorem rowMatchesSearch_empty (row : NetworkMetricRow) :
    rowMatchesSearch row "" = true := by
  have h : (strToLower "").data = [] := rfl
  simp [rowMatchesSearch, strIncludes, h, hasSubList_nil]

/-- C8 counterexample: with the selection empty and an empty search, the
table filter keeps every row — the filtered set for a one-row table is
that row, not the empty set the claim requires. -/
theorem empty_selection_filter_shows_all_rows :
    filteredData [] "" [rowEth] = [rowEth]
    ∧ ([rowEth] : List NetworkMetricRow) ≠ [] := by
  constructor
  · simp [filteredData, List.filter, rowMatchesSearch_empty]
  · simp

/-- C8 amended: when the selection is non-empty, the table's filtered
view contains only rows whose interface is selected; when the selection
is *empty*, the filter passes every row (an empty selection displays
everything, not nothing); and the Aggregate Calculator (modelled from
the spec) yields all-zero KPIs over an empty selection without
raising. -/
theorem filteredData_selection_and_empty_kpis
    (selected : List String) (search : String) (rows : List NetworkMetricRow)
    (samples : List PerformanceMetric) :
    (selected ≠ [] → ∀ row ∈ filteredData selected search rows,
        row.interface ∈ selected)
    ∧ (selected = [] →
        filteredData selected search rows
          = rows.filter (fun row => rowMatchesSearch row search))
    ∧ getLatestMetrics samples [] = ⟨⟨0, 0, 0, 0⟩, 0, 0⟩ := by
  refine ⟨?_, ?_, ?_⟩
  · intro hsel row hrow
    have h := (List.mem_filter.mp hrow).2
    rcases (Bool.and_eq_true _ _).mp h with ⟨h1, _⟩
    rcases (Bool.or_eq_true _ _).mp h1 with h2 | h2
    · simpa using h2
    · exact absurd (List.isEmpty_iff.mp h2) hsel
  · intro h
    subst h
    simp [filteredData]
  · have hf : samples.filter (fun m => ([] : List String).contains m.interface) = [] :=
      List.filter_eq_nil_iff.mpr (fun a _ => by simp)
    simp [getLatestMetrics, hf]

/-- Witness for the amended C8: concrete one-row instances of all three
conjuncts. -/
theorem filteredData_selection_and_empty_kpis_witness :
    (∀ row ∈ filteredData ["wlan0"] "" [rowEth], row.interface ∈ ["wlan0"])
    ∧ filteredData [] "" [rowEth]
        = [rowEth].filter (fun row => rowMatchesSearch row "")
    ∧ getLatestMetrics [mEth] [] = ⟨⟨0, 0, 0, 0⟩, 0, 0⟩ :=
  ⟨(filteredData_selection_and_empty_kpis ["wlan0"] "" [rowEth] [mEth]).1 (by decide),
   (filteredData_selection_and_empty_kpis [] "" [rowEth] [mEth]).2.1 rfl,
   (filteredData_selection_and_empty_kpis [] "" [rowEth] [mEth]).2.2⟩

end NetworkMonitor
